import Mathlib

/-
  Verification development for the AMP discord bot repository.

  The definitions below are a shallow embedding of the request lifecycle
  state machine, the SQLite-backed request store, and the AMP provisioning
  client, translated from the Python sources under src/.  Remote I/O is
  modelled by passing the outcome of each remote exchange as an explicit
  argument; database state is a list of rows passed and returned explicitly.
-/

namespace AmpBot

/-- From src/models/__init__.py, class RequestStatus(Enum): the enum defines
exactly the four members PENDING, APPROVED, REJECTED, EXPIRED.  There is no
CANCELLED member. -/
inductive RequestStatus where
  | pending
  | approved
  | rejected
  | expired
  deriving DecidableEq, Repr

/-- Python attribute lookup RequestStatus.NAME: returns the member when the
enum defines it and none otherwise (Python raises AttributeError in the
none case). -/
def RequestStatus.memberNamed (s : String) : Option RequestStatus :=
  if s = "PENDING" then some .pending
  else if s = "APPROVED" then some .approved
  else if s = "REJECTED" then some .rejected
  else if s = "EXPIRED" then some .expired
  else none

/-- From src/models/__init__.py, dataclass GameRequest: one row of the
game_requests table.  Timestamps are modelled as integers. -/
structure GameRequest where
  id : Nat
  user_id : Nat
  username : String
  game_name : String
  status : RequestStatus
  requested_at : Int
  processed_at : Option Int
  processed_by : Option Nat
  message_id : Option Nat
  admin_message_id : Option Nat
  notes : Option String
  amp_user_id : Option String
  amp_instance_id : Option String
  deriving DecidableEq, Repr

/-- From src/database/db.py, DatabaseManager.update_request_status
(lines 156-207).  The SQL UPDATE is keyed on id only: it sets status,
processed_at (to the current time), processed_by, notes, amp_user_id and
amp_instance_id on every row whose id matches, with no condition on the
current status.  The admin_message_id column is included in the SET list
only when the admin_message_id argument is not None; otherwise the column
keeps its old value. -/
def update_request_status (db : List GameRequest) (request_id : Nat)
    (status : RequestStatus) (processed_by : Option Nat) (notes : Option String)
    (amp_user_id amp_instance_id : Option String)
    (admin_message_id : Option Nat) (now : Int) : List GameRequest :=
  db.map fun r =>
    if r.id = request_id then
      { r with
        status := status
        processed_at := some now
        processed_by := processed_by
        notes := notes
        amp_user_id := amp_user_id
        amp_instance_id := amp_instance_id
        admin_message_id :=
          if admin_message_id.isSome then admin_message_id else r.admin_message_id }
    else r

/-- From src/database/db.py, DatabaseManager.expire_old_requests
(lines 209-222): UPDATE game_requests SET status = expired,
processed_at = now WHERE status = pending AND requested_at < now - hours.
The two datetime.utcnow() calls in the source are collapsed into the single
argument now. -/
def expire_old_requests (db : List GameRequest) (now : Int) (hours : Nat) :
    List GameRequest :=
  let cutoff : Int := now - 3600 * (hours : Int)
  db.map fun r =>
    if r.status = RequestStatus.pending ∧ r.requested_at < cutoff then
      { r with status := RequestStatus.expired, processed_at := some now }
    else r

/-- Return value of DatabaseManager.expire_old_requests: the Python function
body (db.py lines 209-222) contains no return statement, so the call
evaluates to None whatever the table contents; the value is modelled in
Option Nat so that it can be compared with the count the specification
expects. -/
def expire_old_requests_return (db : List GameRequest) (now : Int)
    (hours : Nat) : Option Nat :=
  none

/-- Number of rows the expiry sweep matches (pending and stale), for
comparison with the count the specification says is returned. -/
def expire_affected_count (db : List GameRequest) (now : Int) (hours : Nat) :
    Nat :=
  (db.filter fun r =>
    r.status = RequestStatus.pending ∧ r.requested_at < now - 3600 * (hours : Int)).length

/-- From src/database/db.py, DatabaseManager.get_user_pending_requests
(lines 125-139): SELECT rows WHERE user_id matches AND status = pending.
(The SQL orders by requested_at; only membership and count are used by the
callers modelled here.) -/
def get_user_pending_requests (db : List GameRequest) (user_id : Nat) :
    List GameRequest :=
  db.filter fun r => r.user_id = user_id ∧ r.status = RequestStatus.pending

/-- From src/config/templates.py (lines 24-34): the TEMPLATE_IDS mapping
from game name to AMP template id. -/
def TEMPLATE_IDS : List (String × Nat) :=
  [("minecraft", 1), ("ark", 3), ("cs2", 5), ("gmod", 4)]

/-- From src/config/templates.py (line 37): default template id used when a
game is not found in the mapping (the Minecraft template). -/
def DEFAULT_TEMPLATE_ID : Nat := 1

/-- Python str.lower restricted to ASCII, as applied to game names. -/
def str_lower (s : String) : String := ⟨s.data.map Char.toLower⟩

/-- From src/config/templates.py, get_template_id (lines 40-50):
TEMPLATE_IDS.get(game_name.lower(), DEFAULT_TEMPLATE_ID). -/
def get_template_id (game_name : String) : Nat :=
  (TEMPLATE_IDS.lookup (str_lower game_name)).getD DEFAULT_TEMPLATE_ID

/-- From src/config/games.py (lines 31-68): the name fields of the
AVAILABLE_GAMES catalog entries. -/
def AVAILABLE_GAME_NAMES : List String := ["minecraft", "ark", "cs2", "gmod"]

/-- From src/config/games.py, get_game_by_name (lines 79-81), reduced to
whether the lookup finds a catalog entry. -/
def get_game_by_name_found (name : String) : Bool :=
  AVAILABLE_GAME_NAMES.contains name

/-- From src/models/__init__.py, dataclass AMPUser: the panel account
object returned by AMPService.create_user. -/
structure AMPUser where
  username : String
  password : String
  email : String
  roles : List String
  user_id : Option String
  deriving DecidableEq, Repr

/-- From src/models/__init__.py, dataclass AMPInstance: the deployed server
object returned by the instance-creation path. -/
structure AMPInstance where
  name : String
  template : String
  owner_id : String
  instance_id : Option String
  status : Option String
  deriving DecidableEq, Repr

/-- Outcome of the remote get_user_info probe in AMPService.create_user
(amp_service.py lines 134-158): found means a non-None user info arrived
within the 5 second timeout; absent covers a None reply, a timeout and any
exception, which the source handles identically (log and fall through). -/
inductive GetInfoOutcome where
  | found
  | absent
  deriving DecidableEq, Repr

/-- Outcome of the remote core_api.create_user call in AMPService.create_user
(amp_service.py lines 164-291): the six cases the source distinguishes. -/
inductive CreateCallOutcome where
  | timeout
  | errAlreadyExists
  | errOther
  | retNone
  | retStatusTrue (resultId : Option String)
  | retStatusFalse
  deriving DecidableEq, Repr

/-- The remote panel behaviour observed by one AMPService.create_user call. -/
structure Remote where
  getInfo : GetInfoOutcome
  create : CreateCallOutcome
  deriving DecidableEq, Repr

/-- Observable effects of one AMPService.create_user call: the returned
value, how many remote get_user_info probes and remote creation calls were
issued, and the amp_users ledger after the call. -/
structure CreateUserRun where
  result : Option AMPUser
  infoCalls : Nat
  createCalls : Nat
  ledger : List String
  deriving DecidableEq, Repr

/-- From src/database/db.py, create_amp_user_record (lines 237-249) as
guarded by the callers in create_user: the ledger records the username only
when a discord_user_id was supplied (amp_service.py checks
if discord_user_id before every create_amp_user_record call). -/
def recordLedger (ledger : List String) (username : String)
    (discord_user_id : Option Nat) : List String :=
  match discord_user_id with
  | some _ => username :: ledger
  | none => ledger

/-- From src/services/amp_service.py, AMPService.create_user
(lines 107-295).  The ledger argument is the set of amp_username values in
the amp_users table (db.amp_user_exists, db.py lines 251-261).  Paths:
not connected returns None; a ledger hit returns the reconstructed user
with password "[EXISTING]" and no remote call; otherwise one get_user_info
probe is issued, and on absence one remote creation call, whose outcome is
normalized as in the source: timeout and an already-exists error return the
redacted existing user and record the ledger; any other error propagates to
the outer except and returns None without recording; a None result is
treated as success (password set remotely, ledger recorded); an explicit
ActionResult success returns the new user but records nothing; an explicit
failure returns None. -/
def create_user (connected : Bool) (ledger : List String)
    (username email : String) (roles : List String)
    (discord_user_id : Option Nat) (secret : String) (remote : Remote) :
    CreateUserRun :=
  if ¬connected then ⟨none, 0, 0, ledger⟩
  else if username ∈ ledger then
    ⟨some ⟨username, "[EXISTING]", email, roles, some username⟩, 0, 0, ledger⟩
  else
    match remote.getInfo with
    | .found =>
      ⟨some ⟨username, "[EXISTING]", email, roles, some username⟩, 1, 0,
        recordLedger ledger username discord_user_id⟩
    | .absent =>
      match remote.create with
      | .timeout =>
        ⟨some ⟨username, "[EXISTING]", email, roles, some username⟩, 1, 1,
          recordLedger ledger username discord_user_id⟩
      | .errAlreadyExists =>
        ⟨some ⟨username, "[EXISTING]", email, roles, some username⟩, 1, 1,
          recordLedger ledger username discord_user_id⟩
      | .errOther => ⟨none, 1, 1, ledger⟩
      | .retNone =>
        ⟨some ⟨username, secret, email, roles, none⟩, 1, 1,
          recordLedger ledger username discord_user_id⟩
      | .retStatusTrue resultId =>
        ⟨some ⟨username, secret, email, roles, resultId⟩, 1, 1, ledger⟩
      | .retStatusFalse => ⟨none, 1, 1, ledger⟩

/-- Outcome of the DeployTemplate HTTP exchange in
AMPService.http_create_instance (amp_service.py lines 604-660): an
exception raised during the exchange (including a transport timeout), a
non-200 response, a JSON body with an acknowledgement (success flag,
Status Running, or a task Id, with the optional Id field), a JSON body
without an acknowledgement, and a non-JSON body with or without a
success/running token. -/
inductive DeployOutcome where
  | exn
  | httpError
  | jsonAck (taskId : Option String)
  | jsonNak
  | textAck
  | textNak
  deriving DecidableEq, Repr

/-- The TemplateID field of the DeployTemplate payload
(amp_service.py lines 578-582): resolved via get_template_id. -/
def deploy_payload_template_id (template : String) : Nat :=
  get_template_id template

/-- From src/services/amp_service.py, AMPService.http_create_instance
(lines 535-660).  sessionOk is whether a session id and HTTP session
already exist; loginSucceeds is the result of http_login when they do not.
Each acknowledged outcome returns an instance with status
"deploying_template" (instance_id is the task Id when present, else the
requested name); every other outcome, including an exception, returns
None via the surrounding try/except. -/
def http_create_instance (sessionOk loginSucceeds : Bool)
    (name template owner_id : String) (outcome : DeployOutcome) :
    Option AMPInstance :=
  if ¬sessionOk ∧ ¬loginSucceeds then none
  else
    match outcome with
    | .exn => none
    | .httpError => none
    | .jsonAck taskId =>
      some ⟨name, template, owner_id, some (taskId.getD name), some "deploying_template"⟩
    | .jsonNak => none
    | .textAck => some ⟨name, template, owner_id, some name, some "deploying_template"⟩
    | .textNak => none

/-- How the call to http_create_instance terminates, as seen by
create_instance: either it returns a value (possibly None) or it raises. -/
inductive HttpCallResult where
  | returns (r : Option AMPInstance)
  | raises
  deriving DecidableEq, Repr

/-- From src/services/amp_service.py, AMPService.create_instance
(lines 344-363): forwards the result of http_create_instance, and if that
call raises an exception, returns an AMPInstance with instance_id equal to
the requested name and status "failed" instead of propagating the error. -/
def create_instance (name template owner_id : String)
    (call : HttpCallResult) : Option AMPInstance :=
  match call with
  | .returns r => r
  | .raises => some ⟨name, template, owner_id, some name, some "failed"⟩

/-- From src/cogs/admin.py, AdminCog._process_approval (lines 269-316),
as a function of the values returned by the two provisioning calls.
A falsy (None) amp_user yields (False, None, None); a truthy amp_user with
a falsy amp_instance yields (False, username, None); both truthy yields
(True, username, instance_id).  An exception inside the method is caught
and also yields (False, None, None). -/
def process_approval (amp_user : Option AMPUser)
    (amp_instance : Option AMPInstance) :
    Bool × Option String × Option String :=
  match amp_user with
  | none => (false, none, none)
  | some u =>
    match amp_instance with
    | none => (false, some u.username, none)
    | some inst => (true, some u.username, inst.instance_id)

/-- From src/cogs/admin.py, approve_request_callback (lines 126-223),
restricted to its effect on the game_requests table.  Pre-checks in source
order: request not found, status not pending, game configuration not found,
discord user not found -- each returns without touching the table.
Otherwise _process_approval runs; only when its success flag is True is
update_request_status invoked with status approved, the admin as
processed_by, notes "Approved by admin" and the produced handles; when the
flag is False nothing is written. -/
def approve_request_callback (db : List GameRequest) (request_id : Nat)
    (adminId : Nat) (now : Int) (gameFound userFound : Bool)
    (amp_user : Option AMPUser) (amp_instance : Option AMPInstance) :
    List GameRequest :=
  match db.find? (fun r => r.id = request_id) with
  | none => db
  | some req =>
    if req.status ≠ RequestStatus.pending then db
    else if ¬gameFound then db
    else if ¬userFound then db
    else
      let res := process_approval amp_user amp_instance
      if res.1 then
        update_request_status db request_id RequestStatus.approved
          (some adminId) (some "Approved by admin") res.2.1 res.2.2 none now
      else db

/-- Result reported to the user by GameRequestsCog.cancel_request
(game_requests.py lines 574-631). -/
inductive CancelOutcome where
  | notFound
  | notOwner
  | invalidStatus
  | cancelled
  | internalError
  deriving DecidableEq, Repr

/-- From src/cogs/game_requests.py, GameRequestsCog.cancel_request
(lines 574-631).  Checks in source order: request not found; requester is
not the owner; status is not pending.  The success branch then evaluates
RequestStatus.CANCELLED; since the enum defines no such member, that
attribute access raises AttributeError, which the surrounding try/except
catches (the user sees the generic cancellation-failed embed) and the
table is left untouched.  Had the member existed, update_request_status
would have been called with it and only the request id. -/
def cancel_request (db : List GameRequest) (requester : Nat)
    (request_id : Nat) (now : Int) : CancelOutcome × List GameRequest :=
  match db.find? (fun r => r.id = request_id) with
  | none => (.notFound, db)
  | some r =>
    if r.user_id ≠ requester then (.notOwner, db)
    else if r.status ≠ RequestStatus.pending then (.invalidStatus, db)
    else
      match RequestStatus.memberNamed "CANCELLED" with
      | none => (.internalError, db)
      | some st =>
        (.cancelled, update_request_status db request_id st none none none none none now)

/-- Result reported to the user by the /request slash command. -/
inductive SubmitOutcome where
  | invalidGame
  | quotaExceeded
  | duplicateGame
  | created (id : Nat)
  deriving DecidableEq, Repr

/-- From src/cogs/game_requests.py, GameRequestsCog.request_game_server
(lines 393-519), restricted to its decision logic and table effect.
In source order: the game name is lowercased and looked up in the catalog
(invalid game when absent); the pending requests of the requester are
counted and compared with settings.max_pending_requests_per_user (quota
error when count is at least the limit); then any pending request of the
requester for the same game is rejected as a duplicate; otherwise a new
pending row is inserted (newId is the AUTOINCREMENT id). -/
def request_game_server (db : List GameRequest) (user_id : Nat)
    (username : String) (game : String) (maxPending : Nat) (newId : Nat)
    (now : Int) : SubmitOutcome × List GameRequest :=
  let g := str_lower game
  if ¬get_game_by_name_found g then (.invalidGame, db)
  else
    let user_requests := get_user_pending_requests db user_id
    if user_requests.length ≥ maxPending then (.quotaExceeded, db)
    else if user_requests.any (fun r => r.game_name = g) then (.duplicateGame, db)
    else
      (.created newId,
        db ++ [⟨newId, user_id, username, g, RequestStatus.pending, now,
                none, none, none, none, none, none, none⟩])

/-- Parameter names of DatabaseManager.update_request_status
(db.py lines 156-165). -/
def update_request_status_params : List String :=
  ["request_id", "status", "processed_by", "notes", "amp_user_id",
   "amp_instance_id", "admin_message_id"]

/-- Keyword arguments passed to update_request_status by
GameRequestsCog._notify_admins (game_requests.py lines 327-336), the only
call site that passes status PENDING. -/
def notify_admins_update_kwargs : List String :=
  ["admin_message_id", "amp_user_id", "amp_instance_id", "notes",
   "processed_by", "thread_id"]

/-- A Python call raises TypeError before the callee body runs exactly
when it passes a keyword that is not among the callee parameters. -/
def call_raises_type_error (params kwargs : List String) : Bool :=
  kwargs.any fun k => !params.contains k

/-- Fixture: a pending request, as created by the submit paths. -/
def samplePending : GameRequest :=
  ⟨1, 42, "bob", "minecraft", RequestStatus.pending, 0, none, none,
   none, none, none, none, none⟩

/-- Fixture: a second pending request of the same user for another game. -/
def samplePendingArk : GameRequest :=
  { samplePending with id := 2, game_name := "ark" }

/-- Fixture: a panel account as returned by a successful create_user. -/
def sampleUser : AMPUser :=
  ⟨"bob_42", "s3cr3t", "bob_42@discord.local", ["minecraft_admin"], none⟩

/-- Membership description of update_request_status: every row of the
result whose id matches the requested id carries the written fields.
This is the shared workhorse for the store-level theorems. -/
theorem update_request_status_mem_fields
    {db : List GameRequest} {request_id : Nat} {st : RequestStatus}
    {pb : Option Nat} {n : Option String} {au ai : Option String}
    {am : Option Nat} {now : Int} {r : GameRequest}
    (hr : r ∈ update_request_status db request_id st pb n au ai am now)
    (hid : r.id = request_id) :
    r.status = st ∧ r.processed_at = some now ∧ r.processed_by = pb ∧
      r.notes = n ∧ r.amp_user_id = au ∧ r.amp_instance_id = ai := by
  unfold update_request_status at hr
  rw [List.mem_map] at hr
  obtain ⟨p, hp, rfl⟩ := hr
  by_cases h : p.id = request_id
  · simp [h]
  · simp only [if_neg h] at hid ⊢
    exact absurd hid h

/-- C1 counterexample: a serialized race of two terminal transitions on
request 1.  The first racer approves the pending request; the second
racer then writes rejected and succeeds as well -- the UPDATE in
update_request_status carries no condition on status, so instead of
failing with InvalidTransition the loser silently overwrites the winner
terminal status (and its processed_by and handles). -/
theorem C1_counterexample :
    update_request_status [samplePending] 1 RequestStatus.approved (some 7)
        (some "Approved by admin") (some "bob_42") (some "srv") none 10 =
      [{ samplePending with
          status := RequestStatus.approved
          processed_at := some 10
          processed_by := some 7
          notes := some "Approved by admin"
          amp_user_id := some "bob_42"
          amp_instance_id := some "srv" }] ∧
    update_request_status
        (update_request_status [samplePending] 1 RequestStatus.approved (some 7)
          (some "Approved by admin") (some "bob_42") (some "srv") none 10)
        1 RequestStatus.rejected (some 8) (some "spam") none none none 11 =
      [{ samplePending with
          status := RequestStatus.rejected
          processed_at := some 11
          processed_by := some 8
          notes := some "spam"
          amp_user_id := none
          amp_instance_id := none }] := by
  exact ⟨by decide, by decide⟩

/-- C1 amended: update_request_status is an unconditional write keyed only
on the request id.  It never checks the current status and never reports
InvalidTransition; when two terminal transitions race, both succeed and
the later one overwrites the earlier, so every row with the requested id
ends up carrying the second transition entirely, whatever the first
wrote. -/
theorem C1_update_unconditional
    (db : List GameRequest) (request_id : Nat) (s1 s2 : RequestStatus)
    (pb1 pb2 : Option Nat) (n1 n2 : Option String)
    (au1 au2 ai1 ai2 : Option String) (am1 am2 : Option Nat) (t1 t2 : Int)
    (r : GameRequest)
    (hr : r ∈ update_request_status
        (update_request_status db request_id s1 pb1 n1 au1 ai1 am1 t1)
        request_id s2 pb2 n2 au2 ai2 am2 t2)
    (hid : r.id = request_id) :
    r.status = s2 ∧ r.processed_at = some t2 ∧ r.processed_by = pb2 ∧
      r.notes = n2 ∧ r.amp_user_id = au2 ∧ r.amp_instance_id = ai2 :=
  update_request_status_mem_fields hr hid

/-- C1 witness: the amended theorem evaluated on the concrete race of
C1_counterexample. -/
theorem C1_update_unconditional_witness :
    ∃ r, r ∈ update_request_status
        (update_request_status [samplePending] 1 RequestStatus.approved (some 7)
          (some "Approved by admin") (some "bob_42") (some "srv") none 10)
        1 RequestStatus.rejected (some 8) (some "spam") none none none 11 ∧
      r.status = RequestStatus.rejected ∧ r.processed_at = some 11 := by
  have h := C1_update_unconditional [samplePending] 1 RequestStatus.approved
    RequestStatus.rejected (some 7) (some 8) (some "Approved by admin")
    (some "spam") (some "bob_42") none (some "srv") none none none 10 11
    { samplePending with
      status := RequestStatus.rejected
      processed_at := some 11
      processed_by := some 8
      notes := some "spam"
      amp_user_id := none
      amp_instance_id := none } (by decide) (by decide)
  exact ⟨_, by decide, h.1, h.2.1⟩

/-- C2 counterexample: account creation succeeds (sampleUser) but instance
deployment fails (None).  The approval callback leaves the table exactly
as it was: the request is still pending and carries no amp_user_id, so the
partial state (an account exists on the panel) is not persisted before the
failure is surfaced, contrary to the claim that the request is persisted
as approved with the account handle set. -/
theorem C2_counterexample :
    approve_request_callback [samplePending] 1 7 50 true true
        (some sampleUser) none = [samplePending] ∧
    samplePending.status = RequestStatus.pending ∧
    samplePending.amp_user_id = none := by
  exact ⟨by decide, by decide, by decide⟩

/-- C2 amended: on a partial failure (account created, instance deploy
returned None), _process_approval does return a triple distinguishing
partial from full success -- (False, username, None) -- but the approval
callback persists nothing when the success flag is False: the table is
returned unchanged, so the request stays pending and the created account
handle is never written back. -/
theorem C2_partial_failure_not_persisted
    (u : AMPUser) (db : List GameRequest) (request_id adminId : Nat)
    (now : Int) :
    process_approval (some u) none = (false, some u.username, none) ∧
    approve_request_callback db request_id adminId now true true
        (some u) none = db := by
  refine ⟨rfl, ?_⟩
  unfold approve_request_callback
  cases h : db.find? (fun r => r.id = request_id) with
  | none => rfl
  | some req =>
    by_cases hs : req.status = RequestStatus.pending
    · simp [hs, process_approval]
    · simp [hs]

/-- C3 code-bug theorem: the RequestStatus enum has no CANCELLED member
(memberNamed "CANCELLED" is none), so cancelling an owned pending request
hits the AttributeError branch and leaves the table untouched, while the
ownership and pending pre-checks do fire as the claim describes. -/
theorem C3_cancel_attribute_error :
    RequestStatus.memberNamed "CANCELLED" = none ∧
    cancel_request [samplePending] 42 1 50 =
      (CancelOutcome.internalError, [samplePending]) ∧
    cancel_request [samplePending] 43 1 50 =
      (CancelOutcome.notOwner, [samplePending]) ∧
    cancel_request [{ samplePending with status := RequestStatus.approved }]
        42 1 50 =
      (CancelOutcome.invalidStatus,
        [{ samplePending with status := RequestStatus.approved }]) := by
  exact ⟨by decide, by decide, by decide, by decide⟩

/-- C4 counterexample: two create_user calls with the same handle issue two
remote creation calls.  The first call succeeds with an explicit
ActionResult success, and that branch of create_user (amp_service.py
lines 251-282) never records the handle in the amp_users ledger; the second
call therefore misses the ledger and issues another remote creation call,
refuting the claim that two calls with the same handle never issue two
remote creation calls. -/
theorem C4_counterexample :
    (create_user true [] "bob_42" "bob_42@discord.local" ["minecraft_admin"]
        (some 42) "s3cr3t" ⟨.absent, .retStatusTrue none⟩).result.isSome ∧
    (create_user true [] "bob_42" "bob_42@discord.local" ["minecraft_admin"]
        (some 42) "s3cr3t" ⟨.absent, .retStatusTrue none⟩).createCalls = 1 ∧
    (create_user true
        (create_user true [] "bob_42" "bob_42@discord.local" ["minecraft_admin"]
          (some 42) "s3cr3t" ⟨.absent, .retStatusTrue none⟩).ledger
        "bob_42" "bob_42@discord.local" ["minecraft_admin"]
        (some 42) "s3cr3t" ⟨.absent, .retStatusTrue none⟩).createCalls = 1 := by
  exact ⟨by decide, by decide, by decide⟩

/-- C4 amended: the ledger check is a short circuit -- whenever the handle
is already recorded in the amp_users ledger, create_user returns the
reconstructed account with the secret redacted to the marker string and
issues no remote query and no remote creation call, leaving the ledger
unchanged.  The ledger however records the handle only when a
discord_user_id is supplied, and never on the explicit ActionResult
success path, so the recording premise is not guaranteed by a first
successful call. -/
theorem C4_ledger_hit_no_remote
    (ledger : List String) (username email : String) (roles : List String)
    (discord_user_id : Option Nat) (secret : String) (remote : Remote)
    (hmem : username ∈ ledger) :
    create_user true ledger username email roles discord_user_id secret
        remote =
      ⟨some ⟨username, "[EXISTING]", email, roles, some username⟩, 0, 0,
        ledger⟩ := by
  unfold create_user
  simp [hmem]

/-- C4 witness: the amended theorem evaluated on a concrete ledger that
already records the handle. -/
theorem C4_ledger_hit_no_remote_witness :
    create_user true ["bob_42"] "bob_42" "bob_42@discord.local"
        ["minecraft_admin"] (some 42) "s3cr3t" ⟨.absent, .retNone⟩ =
      ⟨some ⟨"bob_42", "[EXISTING]", "bob_42@discord.local",
        ["minecraft_admin"], some "bob_42"⟩, 0, 0, ["bob_42"]⟩ :=
  C4_ledger_hit_no_remote ["bob_42"] "bob_42" "bob_42@discord.local"
    ["minecraft_admin"] (some 42) "s3cr3t" ⟨.absent, .retNone⟩ (by decide)

/-- C5: the timeout policy is asymmetric.  A timeout of the remote account
creation call is normalized to presumed success: create_user returns the
account with the secret redacted to the marker string and records the
handle in the ledger (no error).  A timeout or any failure of the
deployment exchange is a hard failure: http_create_instance returns None
on an exception, a non-200 response, or an unacknowledged body, and the
object create_instance fabricates when the call raises carries status
"failed", never the deployment-started status. -/
theorem C5_timeout_asymmetry :
    (∀ (ledger : List String) (username email : String)
        (roles : List String) (d : Nat) (secret : String),
      username ∉ ledger →
      create_user true ledger username email roles (some d) secret
          ⟨.absent, .timeout⟩ =
        ⟨some ⟨username, "[EXISTING]", email, roles, some username⟩, 1, 1,
          username :: ledger⟩) ∧
    (∀ (sessionOk loginSucceeds : Bool) (name template owner_id : String)
        (outcome : DeployOutcome),
      outcome = .exn ∨ outcome = .httpError ∨ outcome = .jsonNak ∨
          outcome = .textNak →
      http_create_instance sessionOk loginSucceeds name template owner_id
          outcome = none) ∧
    (∀ (name template owner_id : String) (inst : AMPInstance),
      create_instance name template owner_id .raises = some inst →
      inst.status = some "failed" ∧ inst.status ≠ some "deploying_template") := by
  refine ⟨?_, ?_, ?_⟩
  · intro ledger username email roles d secret hmem
    unfold create_user
    simp [hmem, recordLedger]
  · intro sessionOk loginSucceeds name template owner_id outcome h
    rcases h with rfl | rfl | rfl | rfl <;>
      · unfold http_create_instance
        split <;> rfl
  · intro name template owner_id inst h
    injection h with h
    subst h
    exact ⟨rfl, by simp⟩

/-- C5 witness: both sides of the asymmetry evaluated at concrete inputs --
an account-creation timeout for a fresh handle, a deployment exception,
and the fabricated failed instance. -/
theorem C5_timeout_asymmetry_witness :
    create_user true [] "bob_42" "bob_42@discord.local" ["minecraft_admin"]
        (some 42) "s3cr3t" ⟨.absent, .timeout⟩ =
      ⟨some ⟨"bob_42", "[EXISTING]", "bob_42@discord.local",
        ["minecraft_admin"], some "bob_42"⟩, 1, 1, ["bob_42"]⟩ ∧
    http_create_instance true true "bob_minecraft_server" "minecraft" "bob_42"
        .exn = none ∧
    (AMPInstance.mk "bob_minecraft_server" "minecraft" "bob_42"
        (some "bob_minecraft_server") (some "failed")).status = some "failed" := by
  refine ⟨C5_timeout_asymmetry.1 [] "bob_42" "bob_42@discord.local"
      ["minecraft_admin"] 42 "s3cr3t" (by decide),
    C5_timeout_asymmetry.2.1 true true "bob_minecraft_server" "minecraft"
      "bob_42" .exn (Or.inl rfl),
    (C5_timeout_asymmetry.2.2 "bob_minecraft_server" "minecraft" "bob_42"
      (AMPInstance.mk "bob_minecraft_server" "minecraft" "bob_42"
        (some "bob_minecraft_server") (some "failed")) rfl).1⟩

/-- C6 counterexample: invoking update_request_status with status PENDING
(as _notify_admins does to attach the admin message id) sets the decision
timestamp while the request remains pending, violating the claimed
iff-invariant between processed_at and a non-pending status. -/
theorem C6_counterexample :
    update_request_status [samplePending] 1 RequestStatus.pending none none
        none none (some 99) 50 =
      [{ samplePending with
          processed_at := some 50
          admin_message_id := some 99 }] ∧
    samplePending.status = RequestStatus.pending ∧
    samplePending.processed_at = none := by
  exact ⟨by decide, by decide, by decide⟩

/-- C6 amended: update_request_status sets processed_at unconditionally --
every row with the requested id receives the current timestamp whatever
status is written, so every terminal transition does set the decision
timestamp, but so does an invocation with status pending.  The invariant
survives at runtime only by accident: the sole pending-status call site,
_notify_admins, passes a thread_id keyword that update_request_status does
not declare, so that call raises TypeError before reaching the store. -/
theorem C6_processed_at_always_set :
    (∀ (db : List GameRequest) (request_id : Nat) (st : RequestStatus)
        (pb : Option Nat) (n : Option String) (au ai : Option String)
        (am : Option Nat) (now : Int) (r : GameRequest),
      r ∈ update_request_status db request_id st pb n au ai am now →
      r.id = request_id → r.processed_at = some now ∧ r.status = st) ∧
    call_raises_type_error update_request_status_params
        notify_admins_update_kwargs = true := by
  refine ⟨?_, by decide⟩
  intro db request_id st pb n au ai am now r hr hid
  have h := update_request_status_mem_fields hr hid
  exact ⟨h.2.1, h.1⟩

/-- C6 witness: the amended theorem evaluated on the concrete
pending-status invocation of C6_counterexample. -/
theorem C6_processed_at_always_set_witness :
    ({ samplePending with
        processed_at := some 50
        admin_message_id := some 99 } : GameRequest).processed_at = some 50 :=
  (C6_processed_at_always_set.1 [samplePending] 1 RequestStatus.pending none
    none none none (some 99) 50
    { samplePending with processed_at := some 50, admin_message_id := some 99 }
    (by decide) (by decide)).1

/-- C7 counterexample: the expiry sweep affects one stale pending request
yet its return value is None, not the count of affected requests the claim
describes (the Python function body has no return statement). -/
theorem C7_counterexample :
    expire_old_requests_return [samplePending] 100000 24 = none ∧
    expire_affected_count [samplePending] 100000 24 = 1 := by
  exact ⟨rfl, by decide⟩

/-- C7 amended: expire_old_requests transitions exactly the rows that are
pending and whose submission time is older than now minus the threshold to
expired with the decision timestamp set, leaves every other row untouched,
and is idempotent -- a second sweep with the same threshold changes
nothing, because the rows just expired are no longer pending.  It returns
no count: the call evaluates to None. -/
theorem C7_expire_exact_idempotent (db : List GameRequest) (now : Int)
    (hours : Nat) :
    (∀ (i : Nat) (r : GameRequest), db[i]? = some r →
      ((r.status = RequestStatus.pending ∧
          r.requested_at < now - 3600 * (hours : Int)) →
        (expire_old_requests db now hours)[i]? =
          some { r with
            status := RequestStatus.expired
            processed_at := some now }) ∧
      (¬(r.status = RequestStatus.pending ∧
          r.requested_at < now - 3600 * (hours : Int)) →
        (expire_old_requests db now hours)[i]? = some r)) ∧
    expire_old_requests (expire_old_requests db now hours) now hours =
      expire_old_requests db now hours ∧
    expire_old_requests_return db now hours = none := by
  refine ⟨?_, ?_, rfl⟩
  · intro i r hr
    constructor
    · intro hc
      unfold expire_old_requests
      simp only [List.getElem?_map, hr, Option.map_some']
      rw [if_pos hc]
    · intro hc
      unfold expire_old_requests
      simp only [List.getElem?_map, hr, Option.map_some']
      rw [if_neg hc]
  · unfold expire_old_requests
    simp only [List.map_map]
    apply List.map_congr_left
    intro a _
    by_cases h : a.status = RequestStatus.pending ∧
        a.requested_at < now - 3600 * (hours : Int)
    · simp [Function.comp, h]
    · simp [Function.comp, h]

/-- C7 witness: the amended theorem evaluated on a table with one stale
pending request. -/
theorem C7_expire_exact_idempotent_witness :
    (expire_old_requests [samplePending] 100000 24)[0]? =
      some { samplePending with
        status := RequestStatus.expired
        processed_at := some 100000 } ∧
    expire_old_requests (expire_old_requests [samplePending] 100000 24)
        100000 24 =
      expire_old_requests [samplePending] 100000 24 := by
  have h := C7_expire_exact_idempotent [samplePending] 100000 24
  exact ⟨(h.1 0 samplePending (by decide)).1 (by decide), h.2.1⟩

/-- C8 counterexample: with the per-user limit at its default of 3, a user
holding exactly 2 = N-1 pending requests (one of them for minecraft)
submits a minecraft request via the slash command and is rejected as a
duplicate instead of succeeding: the quota boundary is not the only gate,
and the claim that a user with exactly N-1 pending requests may always
submit one more fails. -/
theorem C8_counterexample :
    request_game_server [samplePending, samplePendingArk] 42 "bob"
        "minecraft" 3 5 99 =
      (SubmitOutcome.duplicateGame, [samplePending, samplePendingArk]) ∧
    (get_user_pending_requests [samplePending, samplePendingArk] 42).length
        + 1 = 3 := by
  exact ⟨by decide, by decide⟩

/-- C8 amended: the quota itself is an exact boundary -- with N-1 pending
requests a submission for a valid game passes the quota gate and creates a
new pending row, provided none of the pending requests is for the same
game (the slash-command path also rejects per-game duplicates); with N or
more pending requests the submission fails with the quota error and
creates no request. -/
theorem C8_quota_boundary (db : List GameRequest) (user_id : Nat)
    (username game : String) (maxPending newId : Nat) (now : Int) :
    (get_game_by_name_found (str_lower game) = true →
      (get_user_pending_requests db user_id).length + 1 = maxPending →
      (∀ r ∈ get_user_pending_requests db user_id,
        r.game_name ≠ str_lower game) →
      request_game_server db user_id username game maxPending newId now =
        (.created newId,
          db ++ [⟨newId, user_id, username, str_lower game,
            RequestStatus.pending, now, none, none, none, none, none, none,
            none⟩])) ∧
    (get_game_by_name_found (str_lower game) = true →
      maxPending ≤ (get_user_pending_requests db user_id).length →
      request_game_server db user_id username game maxPending newId now =
        (.quotaExceeded, db)) := by
  constructor
  · intro hg hlen hdup
    have hlt : ¬(get_user_pending_requests db user_id).length ≥ maxPending := by
      omega
    have hany : ((get_user_pending_requests db user_id).any
        fun r => r.game_name = str_lower game) = false := by
      rw [List.any_eq_false]
      intro a ha
      simp [hdup a ha]
    unfold request_game_server
    simp [hg, hlt, hany]
  · intro hg hge
    have hge2 : (get_user_pending_requests db user_id).length ≥ maxPending :=
      hge
    unfold request_game_server
    simp [hg, hge2]

/-- C8 witness: both halves of the amended theorem evaluated concretely --
a user with N-1 = 1 pending request (for ark) successfully submits a
minecraft request at limit 2, and a user with 2 pending requests is
quota-rejected at limit 2. -/
theorem C8_quota_boundary_witness :
    request_game_server [samplePendingArk] 42 "bob" "minecraft" 2 5 99 =
      (SubmitOutcome.created 5,
        [samplePendingArk] ++ [⟨5, 42, "bob", "minecraft",
          RequestStatus.pending, 99, none, none, none, none, none, none,
          none⟩]) ∧
    request_game_server [samplePending, samplePendingArk] 42 "bob"
        "minecraft" 2 5 99 =
      (SubmitOutcome.quotaExceeded, [samplePending, samplePendingArk]) := by
  constructor
  · have h := (C8_quota_boundary [samplePendingArk] 42 "bob" "minecraft" 2 5
      99).1 (by decide) (by decide) (by decide)
    exact h
  · exact (C8_quota_boundary [samplePending, samplePendingArk] 42 "bob"
      "minecraft" 2 5 99).2 (by decide) (by decide)

/-- C9 counterexample: the string "ARK" is not a key of TEMPLATE_IDS (its
keys are lowercase), yet get_template_id "ARK" returns 3, not the default
template id 1 -- the lookup lowercases its argument first, so the claim
that every non-key maps to the default fails. -/
theorem C9_counterexample :
    TEMPLATE_IDS.lookup "ARK" = none ∧
    get_template_id "ARK" = 3 ∧
    get_template_id "ARK" ≠ DEFAULT_TEMPLATE_ID := by
  exact ⟨by decide, by decide, by decide⟩

/-- C9 amended: template resolution is total and silently defaulting up to
lowercasing -- for every game name whose lowercased form is not a key of
TEMPLATE_IDS, get_template_id returns DEFAULT_TEMPLATE_ID = 1 (the
Minecraft template), the DeployTemplate payload carries that default id,
and the deployment exchange proceeds normally instead of rejecting the
unknown game. -/
theorem C9_default_template (s : String)
    (h : TEMPLATE_IDS.lookup (str_lower s) = none) :
    get_template_id s = DEFAULT_TEMPLATE_ID ∧
    deploy_payload_template_id s = DEFAULT_TEMPLATE_ID ∧
    (∀ (loginSucceeds : Bool) (name owner_id : String),
      http_create_instance true loginSucceeds name s owner_id
          (.jsonAck none) =
        some ⟨name, s, owner_id, some name, some "deploying_template"⟩) := by
  have h1 : get_template_id s = DEFAULT_TEMPLATE_ID := by
    unfold get_template_id
    rw [h]
    rfl
  refine ⟨h1, by unfold deploy_payload_template_id; exact h1, ?_⟩
  intro loginSucceeds name owner_id
  unfold http_create_instance
  simp

/-- C9 witness: the amended theorem evaluated at the unregistered game
name "palworld". -/
theorem C9_default_template_witness :
    get_template_id "palworld" = DEFAULT_TEMPLATE_ID ∧
    http_create_instance true true "srv" "palworld" "bob_42" (.jsonAck none) =
      some ⟨"srv", "palworld", "bob_42", some "srv",
        some "deploying_template"⟩ := by
  have h := C9_default_template "palworld" (by decide)
  exact ⟨h.1, h.2.2 true "srv" "bob_42"⟩

/-- C10: when the HTTP deploy call raises, create_instance returns an
AMPInstance with status "failed" and instance_id equal to the requested
name instead of propagating the error or returning None; the approval
callback only checks the result for None, so it treats this object as a
successful deployment and persists the request as approved with
amp_instance_id set to that name. -/
theorem C10_failed_instance_persisted (db : List GameRequest)
    (request_id adminId : Nat) (now : Int) (u : AMPUser)
    (name template owner_id : String) (req : GameRequest)
    (hfind : db.find? (fun q => q.id = request_id) = some req)
    (hp : req.status = RequestStatus.pending) :
    create_instance name template owner_id .raises =
      some ⟨name, template, owner_id, some name, some "failed"⟩ ∧
    ∀ q ∈ approve_request_callback db request_id adminId now true true
        (some u) (create_instance name template owner_id .raises),
      q.id = request_id →
      q.status = RequestStatus.approved ∧
      q.amp_user_id = some u.username ∧
      q.amp_instance_id = some name ∧
      q.processed_at = some now ∧ q.processed_by = some adminId := by
  refine ⟨rfl, ?_⟩
  intro q hq hid
  unfold approve_request_callback at hq
  rw [hfind] at hq
  simp only [hp, process_approval, create_instance] at hq
  simp at hq
  have h := update_request_status_mem_fields hq hid
  exact ⟨h.1, h.2.2.2.2.1, h.2.2.2.2.2, h.2.1, h.2.2.1⟩

/-- C10 witness: the theorem evaluated on a concrete pending request whose
deploy call raises; the resulting table row is approved and carries the
requested instance name as amp_instance_id. -/
theorem C10_failed_instance_persisted_witness :
    ({ samplePending with
        status := RequestStatus.approved
        processed_at := some 50
        processed_by := some 7
        notes := some "Approved by admin"
        amp_user_id := some "bob_42"
        amp_instance_id := some "bob_minecraft_server" } : GameRequest).status
      = RequestStatus.approved := by
  have h := (C10_failed_instance_persisted [samplePending] 1 7 50 sampleUser
    "bob_minecraft_server" "minecraft" "x" samplePending (by decide)
    (by decide)).2
    { samplePending with
      status := RequestStatus.approved
      processed_at := some 50
      processed_by := some 7
      notes := some "Approved by admin"
      amp_user_id := some "bob_42"
      amp_instance_id := some "bob_minecraft_server" }
    (by decide) (by decide)
  exact h.1

end AmpBot
